import Mathlib

/-!
Shallow embedding of the OAuth2 credential lifecycle manager of
safe-gmail-mcp (`src/auth/oauth.js`), covering the interactive grant
flow (`authenticate`), the refresh gate (`refreshIfNeeded`) and the
port selector (`findAvailablePort` / `isPortAvailable`).

External effects (HTTP exchanges with the provider, the file system,
TCP binds) are made explicit: exchange results are passed in as
`Except`-valued inputs, file writes and bind/release actions are
returned as effect lists, and the one-shot session is a state record
transformed by the event handlers translated from the source.
-/

namespace SafeGmail

/-- JS truthiness of an optional string: `undefined`/`null` and the empty
string are falsy.  The source tests `if (error)`, `if (!code)`,
`!credentials.access_token`, `!credentials.refresh_token` this way. -/
def falsyStr : Option String → Bool
  | none => true
  | some s => decide (s = "")

/-- JS truthiness of an optional number: `undefined`/`null` and `0` are
falsy.  The source tests `if (!expiryDate || ...)` this way. -/
def falsyNum : Option Int → Bool
  | none => true
  | some n => decide (n = 0)

/-- The persisted credential record (credentials.json): the JSON fields of
the token object that `oauth.js` reads and writes.  Absent JSON fields are
`none`. -/
structure Credentials where
  access_token : Option String
  refresh_token : Option String
  expiry_date : Option Int
  scope : Option String
  token_type : Option String
deriving Repr, DecidableEq

/-- `isStartOf p s` holds when the character list `p` is an initial segment
of `s`; this models JS `s.startsWith(p)` on the underlying characters. -/
def isStartOf : List Char → List Char → Bool
  | [], _ => true
  | _ :: _, [] => false
  | a :: as, b :: bs => decide (a = b) && isStartOf as bs

/-- JS `s.startsWith(p)`. -/
def jsStartsWith (s p : String) : Bool :=
  isStartOf p.data s.data

/-- Split a character list on a separator character; always returns at
least one (possibly empty) chunk, like JS `split`. -/
def splitOnChar (sep : Char) : List Char → List (List Char)
  | [] => [[]]
  | c :: cs =>
    let rest := splitOnChar sep cs
    if c = sep then [] :: rest
    else
      match rest with
      | [] => [[c]]
      | r :: rs => (c :: r) :: rs

/-- Re-join chunks with a separator character (inverse of `splitOnChar` for
the chunks after the first). -/
def joinChar (sep : Char) : List (List Char) → List Char
  | [] => []
  | [x] => x
  | x :: xs => x ++ sep :: joinChar sep xs

/-- Split one `k=v` chunk of a query string; a chunk with no `=` maps to the
empty value, and only the first `=` separates key from value (as in WHATWG
URL search params). -/
def splitKV (kv : List Char) : String × String :=
  match splitOnChar '=' kv with
  | [] => ("", "")
  | [k] => (String.mk k, "")
  | k :: rest => (String.mk k, String.mk (joinChar '=' rest))

/-- The characters of the query string of a request URL: everything after
the first `?` (later `?` characters belong to the query), `none` when there
is no `?`.  Fragments and percent-decoding are not modelled; no input in
this development uses them. -/
def urlQueryChars (url : String) : Option (List Char) :=
  match splitOnChar '?' url.data with
  | [] => none
  | [_] => none
  | _ :: rest => some (joinChar '?' rest)

/-- The path of a request URL: everything before the first `?`. -/
def urlPath (url : String) : String :=
  String.mk ((splitOnChar '?' url.data).headD [])

/-- `new URL(req.url, base).searchParams.get(key)`: the value of the first
occurrence of `key` in the query string, `none` when absent (a key with no
value yields the empty string, as WHATWG `get` does). -/
def searchParamsGet (url : String) (key : String) : Option String :=
  match urlQueryChars url with
  | none => none
  | some q => (((splitOnChar '&' q).map splitKV).find? (fun p => decide (p.fst = key))).map Prod.snd

/-- Terminal outcomes of one interactive auth session: `granted` is the
promise resolving, all other constructors are the promise rejecting with
the corresponding error (`oauth.js` lines 110-190). -/
inductive Outcome where
  | granted
  | denied (err : String)
  | malformed
  | timedOut
  | exchangeFailed (msg : String)
  | listenerFault (msg : String)
deriving Repr, DecidableEq

/-- The mutable state of one `authenticate` session (the promise body of
`oauth.js` lines 90-191): the `isResolved` guard flag, the delivered
outcome, whether the deadline timer is still pending and whether the HTTP
listener is still open. -/
structure SessionState where
  isResolved : Bool
  outcome : Option Outcome
  timerActive : Bool
  serverOpen : Bool
deriving Repr, DecidableEq

/-- Session state right after the listener is bound, the timeout armed and
the consent URL emitted. -/
def initialSession : SessionState :=
  { isResolved := false, outcome := none, timerActive := true, serverOpen := true }

/-- `cleanup` (`oauth.js` lines 95-107): resolve or reject exactly once; a
call on an already-resolved session returns unchanged.  Otherwise it sets
the guard flag, cancels the timer, closes the listener and delivers the
outcome. -/
def cleanup (st : SessionState) (out : Outcome) : SessionState :=
  if st.isResolved then st
  else { isResolved := true, outcome := some out, timerActive := false, serverOpen := false }

/-- What one invocation of the request listener did: the resulting session
state, the HTTP status written on the response, the credential records
written to the credentials file (in order), and whether a code-for-token
exchange was attempted. -/
structure HandlerResult where
  state : SessionState
  status : Nat
  writes : List Credentials
  exchanged : Bool
deriving Repr, DecidableEq

/-- One invocation of the `request` listener (`oauth.js` lines 130-185).
`exch` supplies the result `oauth2Client.getToken(code)` would produce for
a given code (`.ok tokens` on success, `.error msg` when the exchange
throws).  Note the source performs the exchange and the credential write
before consulting the `isResolved` guard: only `cleanup` is guarded. -/
def handleRequest (st : SessionState) (url : String)
    (exch : String → Except String Credentials) : HandlerResult :=
  if !(jsStartsWith url "/oauth2callback") then
    { state := st, status := 404, writes := [], exchanged := false }
  else
    let error := searchParamsGet url "error"
    if !(falsyStr error) then
      { state := cleanup st (Outcome.denied (error.getD "")), status := 400,
        writes := [], exchanged := false }
    else
      let code := searchParamsGet url "code"
      if falsyStr code then
        { state := cleanup st Outcome.malformed, status := 400,
          writes := [], exchanged := false }
      else
        match exch (code.getD "") with
        | Except.ok tokens =>
            { state := cleanup st Outcome.granted, status := 200,
              writes := [tokens], exchanged := true }
        | Except.error msg =>
            { state := cleanup st (Outcome.exchangeFailed msg), status := 500,
              writes := [], exchanged := true }

/-- The deadline timer firing (`oauth.js` lines 110-112). -/
def timerFire (st : SessionState) : SessionState :=
  cleanup st Outcome.timedOut

/-- A listener error event (`oauth.js` lines 188-190). -/
def serverErrorEvent (st : SessionState) (msg : String) : SessionState :=
  cleanup st (Outcome.listenerFault msg)

/-- A file-system action performed by a credential save.  `mode = none` on a
write means `fs.writeFileSync` was called with no mode option, so the file
is created with the platform default permissions. -/
inductive FsOp where
  | mkdirRecursive (dir : String)
  | writeFile (path : String) (record : Credentials) (mode : Option Nat)
deriving Repr, DecidableEq

/-- `credentialsPath.substring(0, credentialsPath.lastIndexOf('/'))`
(`oauth.js` line 163): the characters before the last `/`, empty when the
path contains no `/` (JS `lastIndexOf` returns -1 and `substring` clamps). -/
def dirname (p : String) : String :=
  match splitOnChar '/' p.data with
  | [] => ""
  | [_] => ""
  | parts => String.mk (joinChar '/' parts.dropLast)

/-- The file-system actions of the grant-path save (`oauth.js` lines
162-167): `mkdirSync(dir, recursive)` when the computed directory is
nonempty and absent (`dirExists` abstracts `fs.existsSync(dir)`), then one
`writeFileSync` of the full token object with no mode option. -/
def grantSaveOps (credentialsPath : String) (tokens : Credentials)
    (dirExists : Bool) : List FsOp :=
  let dir := dirname credentialsPath
  (if dir ≠ "" ∧ dirExists = false then [FsOp.mkdirRecursive dir] else []) ++
    [FsOp.writeFile credentialsPath tokens none]

/-- The file-system actions of the refresh-path save (`oauth.js` line 226):
a single `writeFileSync` of the refreshed token object, with no directory
creation and no mode option. -/
def refreshSaveOps (credentialsPath : String) (newCredentials : Credentials) :
    List FsOp :=
  [FsOp.writeFile credentialsPath newCredentials none]

/-- The spec-side save contract formalized from C6's wording: every write
carries an explicit mode whose group and other permission bits are all
clear (readability restricted to the owning principal). -/
def saveRestrictsPermissions (ops : List FsOp) : Bool :=
  ops.all fun op =>
    match op with
    | FsOp.writeFile _ _ mode =>
      match mode with
      | some m => decide (m % 64 = 0)
      | none => false
    | _ => true

/-- 5 minutes in milliseconds (`oauth.js` line 211). -/
def expiryBuffer : Int := 5 * 60 * 1000

/-- The expiry test of `refreshIfNeeded` (`oauth.js` line 214):
`!expiryDate || Date.now() >= expiryDate - expiryBuffer`. -/
def needsRefresh (c : Credentials) (now : Int) : Bool :=
  falsyNum c.expiry_date || decide (now ≥ c.expiry_date.getD 0 - expiryBuffer)

/-- Errors thrown by `refreshIfNeeded` (`oauth.js` lines 206-231). -/
inductive RefreshError where
  | noCredentials
  | refreshTokenMissing
  | refreshFailed (msg : String)
deriving Repr, DecidableEq

/-- `refreshIfNeeded` (`oauth.js` lines 202-235).  `now` is `Date.now()`;
`exch` supplies the result `oauth2Client.refreshAccessToken()` would
produce (`.ok newCredentials` on success).  The result pairs the returned
value or thrown error with the list of credential records written to the
credentials file. -/
def refreshIfNeeded (c : Credentials) (now : Int)
    (exch : Except String Credentials) :
    Except RefreshError Bool × List Credentials :=
  if falsyStr c.access_token then (Except.error RefreshError.noCredentials, [])
  else if needsRefresh c now then
    if falsyStr c.refresh_token then (Except.error RefreshError.refreshTokenMissing, [])
    else
      match exch with
      | Except.ok newCredentials => (Except.ok true, [newCredentials])
      | Except.error msg => (Except.error (RefreshError.refreshFailed msg), [])
  else (Except.ok false, [])

/-- A TCP action performed while probing ports. -/
inductive PortEvent where
  | bind (p : Nat)
  | release (p : Nat)
  | bindFail (p : Nat)
deriving Repr, DecidableEq

/-- `isPortAvailable` (`oauth.js` lines 258-268): bind a throwaway server on
the port; on success close it immediately and report true, on an error
event report false.  `avail` abstracts whether the OS accepts the bind. -/
def isPortAvailable (avail : Nat → Bool) (p : Nat) : Bool × List PortEvent :=
  if avail p then (true, [PortEvent.bind p, PortEvent.release p])
  else (false, [PortEvent.bindFail p])

/-- The `for` loop of `findAvailablePort` (`oauth.js` lines 244-248):
probe the candidates in list order via `isPortAvailable` and stop at the
first available one, collecting the TCP actions of every probe made. -/
def probePorts (avail : Nat → Bool) : List Nat → Option Nat × List PortEvent
  | [] => (none, [])
  | p :: rest =>
    let probe := isPortAvailable avail p
    if probe.1 then (some p, probe.2)
    else ((probePorts avail rest).1, probe.2 ++ (probePorts avail rest).2)

/-- `OAUTH_PORTS.join(', ')` for the error message of `findAvailablePort`. -/
def joinPorts (ports : List Nat) : String :=
  String.intercalate ", " (ports.map toString)

/-- `findAvailablePort` (`oauth.js` lines 243-250), generalized over the
candidate list (the source instantiates it with `OAUTH_PORTS`): the first
available candidate in list order, or a no-port-available error when every
probe fails. -/
def findAvailablePort (avail : Nat → Bool) (ports : List Nat) :
    Except String Nat × List PortEvent :=
  match (probePorts avail ports).1 with
  | some p => (Except.ok p, (probePorts avail ports).2)
  | none =>
    (Except.error ("No available ports found. Tried: " ++ joinPorts ports),
      (probePorts avail ports).2)

/-- `OAUTH_PORTS` (`oauth.js` line 14). -/
def OAUTH_PORTS : List Nat := [3000, 3001, 3002]

/-- The refresh policy as claim C3 words it (spec-side definition, for
comparison with `needsRefresh`): the record needs refresh exactly when
`expiryTimestamp` is absent or now is within 5 minutes, inclusive, of
`expiryTimestamp` (which includes being past it). -/
def specNeedsRefresh (c : Credentials) (now : Int) : Prop :=
  c.expiry_date = none ∨ ∃ v, c.expiry_date = some v ∧ now ≥ v - expiryBuffer

/-- The record claim C1 says is persisted (spec-side definition): the
exchange response, except that a response omitting a refresh token keeps
the refresh token of the previously stored record. -/
def specMergedRecord (previous response : Credentials) : Credentials :=
  if response.refresh_token = none then
    { response with refresh_token := previous.refresh_token }
  else response

/-- An exchange oracle for requests that never reach the exchange. -/
def exchNever : String → Except String Credentials :=
  fun _ => Except.error "unreachable"

/-- A sample token object as returned by a code or refresh exchange. -/
def sampleTokens : Credentials :=
  { access_token := some "A", refresh_token := some "R",
    expiry_date := some 1700000000000, scope := some "gmail.modify",
    token_type := some "Bearer" }

/-- A sample previously stored record holding a refresh token. -/
def prevStored : Credentials :=
  { access_token := some "oldA", refresh_token := some "oldR",
    expiry_date := some 1000, scope := some "gmail.modify",
    token_type := some "Bearer" }

/-- A sample grant exchange response that omits the refresh token. -/
def grantRespNoRT : Credentials :=
  { access_token := some "newA", refresh_token := none,
    expiry_date := some 2000, scope := some "gmail.modify",
    token_type := some "Bearer" }

/-- A sample loaded record with no access token. -/
def credNoAccess : Credentials :=
  { access_token := none, refresh_token := some "R",
    expiry_date := none, scope := none, token_type := none }

/-- A sample expired record with no refresh token. -/
def credNoRefresh : Credentials :=
  { access_token := some "A", refresh_token := none,
    expiry_date := none, scope := none, token_type := none }

/-- A sample record with a zero `expiry_date` field. -/
def credZeroExpiry : Credentials :=
  { access_token := some "A", refresh_token := some "R",
    expiry_date := some 0, scope := none, token_type := none }

/-- A sample record whose expiry is far in the future. -/
def credFresh : Credentials :=
  { access_token := some "A", refresh_token := some "R",
    expiry_date := some 1000000000, scope := none, token_type := none }

/-- A sample record whose expiry is inside the 5-minute lookahead. -/
def credStale : Credentials :=
  { access_token := some "A", refresh_token := some "R",
    expiry_date := some 100, scope := none, token_type := none }

/-- The credentials path used in concrete instances. -/
def credPath : String := "/home/u/.safe-gmail-mcp/credentials.json"

/-- Claim C3: for every loaded record with an access token, `refreshIfNeeded`
judges the record as needing refresh exactly when `expiry_date` is absent or
now is within 5 minutes (inclusive) of it; when no refresh is needed it
returns false with no write, and when refresh is needed, a refresh token is
present and the exchange succeeds, it performs exactly one write of the
refreshed record and returns true.  `now` is `Date.now()`, hence
nonnegative (epoch milliseconds). -/
theorem C3_refresh_policy (c : Credentials) (now : Int)
    (exch : Except String Credentials)
    (hacc : falsyStr c.access_token = false) (hnow : 0 ≤ now) :
    (needsRefresh c now = true ↔ specNeedsRefresh c now) ∧
    (needsRefresh c now = false →
      refreshIfNeeded c now exch = (Except.ok false, [])) ∧
    (needsRefresh c now = true → falsyStr c.refresh_token = false →
      ∀ nc : Credentials, exch = Except.ok nc →
        refreshIfNeeded c now exch = (Except.ok true, [nc])) := by
  refine ⟨?_, ?_, ?_⟩
  · cases h : c.expiry_date with
    | none => simp [needsRefresh, falsyNum, h, specNeedsRefresh]
    | some v =>
      simp only [needsRefresh, falsyNum, h, specNeedsRefresh, Option.getD_some,
        Bool.or_eq_true, decide_eq_true_eq, Option.some.injEq,
        reduceCtorEq, false_or]
      constructor
      · rintro (hv | hv)
        · exact ⟨v, rfl, by simp [expiryBuffer] at hv ⊢; omega⟩
        · exact ⟨v, rfl, hv⟩
      · rintro ⟨w, hw, hge⟩
        exact Or.inr (hw ▸ hge)
  · intro h
    simp [refreshIfNeeded, hacc, h]
  · intro h hrt nc hnc
    simp [refreshIfNeeded, hacc, h, hrt, hnc]

/-- Witness for C3 at concrete inputs: a fresh record is left alone and a
stale record is refreshed with exactly one write. -/
theorem C3_refresh_policy_witness :
    refreshIfNeeded credFresh 0 (Except.ok sampleTokens) = (Except.ok false, []) ∧
    refreshIfNeeded credStale 0 (Except.ok sampleTokens) = (Except.ok true, [sampleTokens]) :=
  ⟨(C3_refresh_policy credFresh 0 (Except.ok sampleTokens) (by decide) (by decide)).2.1
      (by decide),
   (C3_refresh_policy credStale 0 (Except.ok sampleTokens) (by decide) (by decide)).2.2
      (by decide) (by decide) sampleTokens rfl⟩

/-- Claim C8: `refreshIfNeeded` throws the no-credentials error whenever the
loaded record has no (JS-truthy) access token, and the
refresh-token-missing error whenever the record needs refresh but carries
no refresh token; in both cases nothing is written. -/
theorem C8_refresh_errors (c : Credentials) (now : Int)
    (exch : Except String Credentials) :
    (falsyStr c.access_token = true →
      refreshIfNeeded c now exch = (Except.error RefreshError.noCredentials, [])) ∧
    (falsyStr c.access_token = false → needsRefresh c now = true →
      falsyStr c.refresh_token = true →
      refreshIfNeeded c now exch = (Except.error RefreshError.refreshTokenMissing, [])) := by
  constructor
  · intro h
    simp [refreshIfNeeded, h]
  · intro h1 h2 h3
    simp [refreshIfNeeded, h1, h2, h3]

/-- Witness for C8 at concrete records: a record with no access token and an
expired record with no refresh token. -/
theorem C8_refresh_errors_witness :
    refreshIfNeeded credNoAccess 0 (Except.error "e") =
      (Except.error RefreshError.noCredentials, []) ∧
    refreshIfNeeded credNoRefresh 0 (Except.error "e") =
      (Except.error RefreshError.refreshTokenMissing, []) :=
  ⟨(C8_refresh_errors credNoAccess 0 (Except.error "e")).1 (by decide),
   (C8_refresh_errors credNoRefresh 0 (Except.error "e")).2 (by decide) (by decide) (by decide)⟩

/-- Claim C9: a callback request on the reserved path carrying both a
(JS-truthy) error parameter and a code parameter resolves as a denial:
the error branch takes precedence, no code-for-token exchange is
attempted and nothing is written. -/
theorem C9_error_precedence (st : SessionState) (url : String)
    (exch : String → Except String Credentials)
    (hpath : jsStartsWith url "/oauth2callback" = true)
    (herr : falsyStr (searchParamsGet url "error") = false)
    (_hcode : falsyStr (searchParamsGet url "code") = false) :
    (handleRequest st url exch).exchanged = false ∧
    (handleRequest st url exch).writes = [] ∧
    (handleRequest st url exch).state =
      cleanup st (Outcome.denied ((searchParamsGet url "error").getD "")) := by
  simp [handleRequest, hpath, herr]

/-- Witness for C9: a callback carrying both parameters is denied without an
exchange attempt. -/
theorem C9_error_precedence_witness :
    (handleRequest initialSession "/oauth2callback?error=access_denied&code=c1" exchNever).exchanged = false ∧
    (handleRequest initialSession "/oauth2callback?error=access_denied&code=c1" exchNever).writes = [] ∧
    (handleRequest initialSession "/oauth2callback?error=access_denied&code=c1" exchNever).state =
      cleanup initialSession (Outcome.denied
        ((searchParamsGet "/oauth2callback?error=access_denied&code=c1" "error").getD "")) :=
  C9_error_precedence initialSession "/oauth2callback?error=access_denied&code=c1" exchNever
    (by decide) (by decide) (by decide)

/-- Claim C10: a record whose `expiry_date` is present but `0` (JS-falsy) is
judged as needing refresh, and `refreshIfNeeded` behaves on it exactly as
on the same record with `expiry_date` absent. -/
theorem C10_zero_expiry (c : Credentials) (now : Int)
    (exch : Except String Credentials) (h : c.expiry_date = some 0) :
    needsRefresh c now = true ∧
    refreshIfNeeded c now exch =
      refreshIfNeeded { c with expiry_date := none } now exch := by
  have h1 : needsRefresh c now = true := by
    simp [needsRefresh, falsyNum, h]
  have h2 : needsRefresh { c with expiry_date := none } now = true := by
    simp [needsRefresh, falsyNum]
  refine ⟨h1, ?_⟩
  simp [refreshIfNeeded, h1, h2]

/-- Witness for C10 at a concrete zero-expiry record. -/
theorem C10_zero_expiry_witness :
    needsRefresh credZeroExpiry 0 = true ∧
    refreshIfNeeded credZeroExpiry 0 (Except.ok sampleTokens) =
      refreshIfNeeded { credZeroExpiry with expiry_date := none } 0 (Except.ok sampleTokens) :=
  C10_zero_expiry credZeroExpiry 0 (Except.ok sampleTokens) rfl

/-- Claim C5: a callback whose error parameter is JS-truthy resolves the
pending session as a denial, and a callback carrying neither a code nor an
error parameter resolves it as a malformed callback; in both cases the
promise is rejected and no credential record is written, so a pre-existing
credentials file is untouched. -/
theorem C5_failure_no_write (st : SessionState) (url : String)
    (exch : String → Except String Credentials) (hres : st.isResolved = false) :
    (∀ e : String, searchParamsGet url "error" = some e → e ≠ "" →
      jsStartsWith url "/oauth2callback" = true →
      (handleRequest st url exch).writes = [] ∧
      (handleRequest st url exch).state.outcome = some (Outcome.denied e)) ∧
    (searchParamsGet url "error" = none → searchParamsGet url "code" = none →
      jsStartsWith url "/oauth2callback" = true →
      (handleRequest st url exch).writes = [] ∧
      (handleRequest st url exch).state.outcome = some Outcome.malformed) := by
  constructor
  · intro e he hne hpath
    simp [handleRequest, hpath, he, falsyStr, hne, cleanup, hres]
  · intro he hc hpath
    simp [handleRequest, hpath, he, hc, falsyStr, cleanup, hres]

/-- Witness for C5: a denied callback and a parameterless callback, both
with an empty write list. -/
theorem C5_failure_no_write_witness :
    (handleRequest initialSession "/oauth2callback?error=access_denied" exchNever).writes = [] ∧
    (handleRequest initialSession "/oauth2callback?error=access_denied" exchNever).state.outcome
      = some (Outcome.denied "access_denied") ∧
    (handleRequest initialSession "/oauth2callback" exchNever).writes = [] ∧
    (handleRequest initialSession "/oauth2callback" exchNever).state.outcome
      = some Outcome.malformed := by
  have h1 := (C5_failure_no_write initialSession "/oauth2callback?error=access_denied"
    exchNever rfl).1 "access_denied" (by decide) (by decide) (by decide)
  have h2 := (C5_failure_no_write initialSession "/oauth2callback"
    exchNever rfl).2 (by decide) (by decide) (by decide)
  exact ⟨h1.1, h1.2, h2.1, h2.2⟩

/-- Claim C4, counterexample: the source checks the reserved path with
`startsWith`, so the request URL `/oauth2callbackzz` — whose path is not
the reserved path `/oauth2callback` — is not answered with 404 and does
change the session state (it resolves the session as malformed). -/
theorem C4_counterexample :
    urlPath "/oauth2callbackzz" ≠ "/oauth2callback" ∧
    (handleRequest initialSession "/oauth2callbackzz" exchNever).status ≠ 404 ∧
    (handleRequest initialSession "/oauth2callbackzz" exchNever).state ≠ initialSession := by
  refine ⟨by decide, by decide, by decide⟩

/-- Claim C4 (amended): the handler treats exactly the requests whose URL
starts with `/oauth2callback` as protocol input — so longer paths sharing
that beginning are protocol input as well; any request whose URL does not
start with it receives 404 and produces no state change, no write and no
exchange attempt. -/
theorem C4_amended_path_check (st : SessionState) (url : String)
    (exch : String → Except String Credentials) :
    (jsStartsWith url "/oauth2callback" = false →
      (handleRequest st url exch).status = 404 ∧
      (handleRequest st url exch).state = st ∧
      (handleRequest st url exch).writes = [] ∧
      (handleRequest st url exch).exchanged = false) ∧
    (jsStartsWith url "/oauth2callback" = true →
      (handleRequest st url exch).status ≠ 404) := by
  constructor
  · intro h
    simp [handleRequest, h]
  · intro h
    unfold handleRequest
    simp only [h, Bool.not_true]
    split
    · simp_all
    · split
      · simp
      · split
        · simp
        · split <;> simp

/-- Witness for C4 (amended): a stray request is answered 404 and changes
nothing; a callback-path request is never answered 404. -/
theorem C4_amended_path_check_witness :
    ((handleRequest initialSession "/favicon.ico" exchNever).status = 404 ∧
      (handleRequest initialSession "/favicon.ico" exchNever).state = initialSession ∧
      (handleRequest initialSession "/favicon.ico" exchNever).writes = [] ∧
      (handleRequest initialSession "/favicon.ico" exchNever).exchanged = false) ∧
    (handleRequest initialSession "/oauth2callback?code=c1" exchNever).status ≠ 404 :=
  ⟨(C4_amended_path_check initialSession "/favicon.ico" exchNever).1 (by decide),
   (C4_amended_path_check initialSession "/oauth2callback?code=c1" exchNever).2 (by decide)⟩

/-- A session state that has already reached the granted terminal outcome. -/
def resolvedGranted : SessionState :=
  cleanup initialSession Outcome.granted

/-- Claim C2, counterexample: the request listener consults the `isResolved`
guard only inside `cleanup`, after the exchange and the credential write,
so a callback request carrying a valid code that is processed after the
session has already reached a terminal outcome (a duplicate redirect on a
kept-alive connection, or a concurrent request whose awaited exchange
completes after the first resolution) still performs a credential write —
an observable effect the claim rules out. -/
theorem C2_counterexample :
    resolvedGranted.isResolved = true ∧
    (handleRequest resolvedGranted "/oauth2callback?code=dup"
      (fun _ => Except.ok sampleTokens)).writes = [sampleTokens] := by
  refine ⟨rfl, by decide⟩

/-- Claim C2 (amended): once a terminal outcome has been reached, the
session resolves exactly once — a later request or timer firing or cleanup
call never changes the session state, so the delivered outcome is final —
but a later callback request is still fully processed: only the
resolution, not the exchange or the credential write, is guarded. -/
theorem C2_amended_single_resolution (st : SessionState) (url : String)
    (exch : String → Except String Credentials) (out : Outcome)
    (h : st.isResolved = true) :
    (handleRequest st url exch).state = st ∧
    timerFire st = st ∧
    cleanup st out = st := by
  have hc : ∀ o : Outcome, cleanup st o = st := fun o => by simp [cleanup, h]
  refine ⟨?_, hc _, hc _⟩
  unfold handleRequest
  split
  · rfl
  · dsimp only
    split
    · simp [hc]
    · split
      · simp [hc]
      · split <;> simp [hc]

/-- Witness for C2 (amended): in a resolved session, a duplicate callback
and a late timer firing leave the state unchanged. -/
theorem C2_amended_single_resolution_witness :
    (handleRequest resolvedGranted "/oauth2callback?code=dup"
      (fun _ => Except.ok sampleTokens)).state = resolvedGranted ∧
    timerFire resolvedGranted = resolvedGranted ∧
    cleanup resolvedGranted Outcome.timedOut = resolvedGranted :=
  C2_amended_single_resolution resolvedGranted "/oauth2callback?code=dup"
    (fun _ => Except.ok sampleTokens) Outcome.timedOut rfl

/-- Claim C1, counterexample: on the grant path the source persists exactly
the exchange response (`oauth.js` line 167 stringifies `tokens`), so when
the response omits a refresh token the previously stored refresh token is
not preserved in the written record, contrary to the claim. -/
theorem C1_counterexample :
    (handleRequest initialSession "/oauth2callback?code=c1"
      (fun _ => Except.ok grantRespNoRT)).writes = [grantRespNoRT] ∧
    grantRespNoRT ≠ specMergedRecord prevStored grantRespNoRT := by
  refine ⟨by decide, by decide⟩

/-- Claim C1 (amended): on both the grant path and the refresh path the
module persists exactly the record returned by the respective exchange
call, performing no merge with the previously stored record; in
particular a previous refresh token survives only if the exchange result
itself carries it. -/
theorem C1_amended_exact_persist (st : SessionState) (url : String)
    (tokens : Credentials) (c : Credentials) (now : Int) (nc : Credentials)
    (hpath : jsStartsWith url "/oauth2callback" = true)
    (herr : falsyStr (searchParamsGet url "error") = true)
    (hcode : falsyStr (searchParamsGet url "code") = false) :
    (handleRequest st url (fun _ => Except.ok tokens)).writes = [tokens] ∧
    (falsyStr c.access_token = false → needsRefresh c now = true →
      falsyStr c.refresh_token = false →
      (refreshIfNeeded c now (Except.ok nc)).2 = [nc]) := by
  constructor
  · simp [handleRequest, hpath, herr, hcode]
  · intro h1 h2 h3
    simp [refreshIfNeeded, h1, h2, h3]

/-- Witness for C1 (amended): a grant with a refresh-token-less response
writes exactly that response, and a refresh writes exactly the refresh
result. -/
theorem C1_amended_exact_persist_witness :
    (handleRequest initialSession "/oauth2callback?code=c1"
      (fun _ => Except.ok grantRespNoRT)).writes = [grantRespNoRT] ∧
    (refreshIfNeeded credStale 0 (Except.ok sampleTokens)).2 = [sampleTokens] := by
  have h := C1_amended_exact_persist initialSession "/oauth2callback?code=c1"
    grantRespNoRT credStale 0 sampleTokens (by decide) (by decide) (by decide)
  exact ⟨h.1, h.2 (by decide) (by decide) (by decide)⟩

/-- Claim C6, counterexample: both saves call `writeFileSync` with no mode
option, so neither restricts readability to the owning principal, and the
refresh-path save does not create the parent directory of the target
path. -/
theorem C6_counterexample :
    saveRestrictsPermissions (grantSaveOps credPath sampleTokens false) = false ∧
    saveRestrictsPermissions (refreshSaveOps credPath sampleTokens) = false ∧
    FsOp.mkdirRecursive (dirname credPath) ∉ refreshSaveOps credPath sampleTokens := by
  refine ⟨by decide, by decide, by decide⟩

/-- Claim C6 (amended): the grant-path save writes the full record once
with no explicit file mode (platform default permissions) and creates the
parent directory recursively when the path has one and it is absent; the
refresh-path save is a single write of the full record, also with no
explicit mode and with no directory creation. -/
theorem C6_amended_save_ops (path : String) (tok nc : Credentials)
    (dirExists : Bool) :
    (∀ p : String, ∀ r : Credentials, ∀ m : Option Nat,
      FsOp.writeFile p r m ∈ grantSaveOps path tok dirExists →
      p = path ∧ r = tok ∧ m = none) ∧
    FsOp.writeFile path tok none ∈ grantSaveOps path tok dirExists ∧
    (dirname path ≠ "" → dirExists = false →
      FsOp.mkdirRecursive (dirname path) ∈ grantSaveOps path tok dirExists) ∧
    refreshSaveOps path nc = [FsOp.writeFile path nc none] := by
  refine ⟨?_, ?_, ?_, rfl⟩
  · intro p r m hm
    by_cases hd : dirname path ≠ "" ∧ dirExists = false
    · simp [grantSaveOps, hd] at hm
      exact ⟨hm.1, hm.2.1, hm.2.2⟩
    · simp [grantSaveOps, hd] at hm
      exact ⟨hm.1, hm.2.1, hm.2.2⟩
  · by_cases hd : dirname path ≠ "" ∧ dirExists = false
    · simp [grantSaveOps, hd]
    · simp [grantSaveOps, hd]
  · intro h1 h2
    simp [grantSaveOps, h1, h2]

/-- Witness for C6 (amended) at the concrete credentials path. -/
theorem C6_amended_save_ops_witness :
    FsOp.writeFile credPath sampleTokens none ∈ grantSaveOps credPath sampleTokens false ∧
    FsOp.mkdirRecursive (dirname credPath) ∈ grantSaveOps credPath sampleTokens false ∧
    refreshSaveOps credPath sampleTokens = [FsOp.writeFile credPath sampleTokens none] :=
  ⟨(C6_amended_save_ops credPath sampleTokens sampleTokens false).2.1,
   (C6_amended_save_ops credPath sampleTokens sampleTokens false).2.2.1 (by decide) rfl,
   (C6_amended_save_ops credPath sampleTokens sampleTokens false).2.2.2⟩

/-- The spec wording of first-fit port selection: `q` sits somewhere in the
candidate list, is free, and every candidate before it is bound. -/
def firstFreeInOrder (avail : Nat → Bool) (ports : List Nat) (q : Nat) : Prop :=
  ∃ before after, ports = before ++ q :: after ∧ avail q = true ∧
    ∀ r ∈ before, avail r = false

/-- The trace of `findAvailablePort` is the trace of its probe loop. -/
lemma findAvailablePort_trace (avail : Nat → Bool) (ports : List Nat) :
    (findAvailablePort avail ports).2 = (probePorts avail ports).2 := by
  cases h : (probePorts avail ports).1 <;> simp [findAvailablePort, h]

/-- When every candidate is bound, the probe loop finds nothing and its
trace is one failed bind per candidate, in order. -/
lemma probePorts_none (avail : Nat → Bool) :
    ∀ ports : List Nat, (∀ p ∈ ports, avail p = false) →
      (probePorts avail ports).1 = none ∧
      (probePorts avail ports).2 = ports.map PortEvent.bindFail := by
  intro ports
  induction ports with
  | nil => intro _; exact ⟨rfl, rfl⟩
  | cons p rest ih =>
    intro h
    have hp : avail p = false := h p (List.mem_cons_self p rest)
    have hr := ih (fun x hx => h x (List.mem_cons_of_mem p hx))
    simp [probePorts, isPortAvailable, hp, hr.1, hr.2]

/-- When some candidate is free, the probe loop returns the first free
candidate in list order. -/
lemma probePorts_some_of_free (avail : Nat → Bool) :
    ∀ ports : List Nat, (∃ p ∈ ports, avail p = true) →
      ∃ q, (probePorts avail ports).1 = some q ∧ firstFreeInOrder avail ports q := by
  intro ports
  induction ports with
  | nil =>
    rintro ⟨p, hp, _⟩
    cases hp
  | cons p rest ih =>
    rintro ⟨x, hx, hax⟩
    by_cases h : avail p = true
    · refine ⟨p, ?_, [], rest, rfl, h, ?_⟩
      · simp [probePorts, isPortAvailable, h]
      · intro r hr
        cases hr
    · have hp : avail p = false := by
        cases hb : avail p
        · rfl
        · exact absurd hb h
      have hx2 : x ∈ rest := by
        rcases List.mem_cons.mp hx with rfl | hx2
        · exact absurd hax h
        · exact hx2
      rcases ih ⟨x, hx2, hax⟩ with ⟨q, hq1, before, after, heq, haq, hbefore⟩
      refine ⟨q, ?_, p :: before, after, by rw [heq, List.cons_append], haq, ?_⟩
      · simp [probePorts, isPortAvailable, hp, hq1]
      · intro r hr
        rcases List.mem_cons.mp hr with rfl | hr2
        · exact hp
        · exact hbefore r hr2

/-- Every bind in the probe loop's trace is paired with a release: the probe
of a free port binds and immediately releases it, and a failed probe binds
nothing. -/
lemma probePorts_balanced (avail : Nat → Bool) (q : Nat) :
    ∀ ports : List Nat,
      ((probePorts avail ports).2.count (PortEvent.bind q)) =
      ((probePorts avail ports).2.count (PortEvent.release q)) := by
  intro ports
  induction ports with
  | nil => rfl
  | cons p rest ih =>
    by_cases h : avail p = true
    · by_cases hpq : p = q
      · subst hpq
        simp [probePorts, isPortAvailable, h, List.count_cons, List.count_nil]
      · simp [probePorts, isPortAvailable, h, List.count_cons, List.count_nil, hpq]
    · have hp : avail p = false := by
        cases hb : avail p
        · rfl
        · exact absurd hb h
      simp [probePorts, isPortAvailable, hp, List.count_cons, List.count_append, ih]

/-- Claim C7: for every ordered candidate list in which some port is free,
`findAvailablePort` returns the first free candidate in list order; when
every candidate is bound it fails with the no-port-available error after
one failed bind per candidate; and in every case each successful bind in
its trace is matched by a release, so no listener is left bound. -/
theorem C7_port_selection (avail : Nat → Bool) (ports : List Nat) :
    ((∃ p ∈ ports, avail p = true) →
      ∃ q, (findAvailablePort avail ports).1 = Except.ok q ∧
        firstFreeInOrder avail ports q) ∧
    ((∀ p ∈ ports, avail p = false) →
      (findAvailablePort avail ports).1 =
        Except.error ("No available ports found. Tried: " ++ joinPorts ports) ∧
      (findAvailablePort avail ports).2 = ports.map PortEvent.bindFail) ∧
    (∀ q : Nat,
      ((findAvailablePort avail ports).2.count (PortEvent.bind q)) =
      ((findAvailablePort avail ports).2.count (PortEvent.release q))) := by
  refine ⟨?_, ?_, ?_⟩
  · intro hex
    rcases probePorts_some_of_free avail ports hex with ⟨q, hq, hff⟩
    exact ⟨q, by simp [findAvailablePort, hq], hff⟩
  · intro hall
    rcases probePorts_none avail ports hall with ⟨h1, h2⟩
    exact ⟨by simp [findAvailablePort, h1], by rw [findAvailablePort_trace]; exact h2⟩
  · intro q
    rw [findAvailablePort_trace]
    exact probePorts_balanced avail q ports

/-- Witness for C7: with only 3001 free among the fixed candidates the
selector returns 3001, and with every candidate bound it fails with the
no-port-available error after three failed binds. -/
theorem C7_port_selection_witness :
    (∃ q, (findAvailablePort (fun p => decide (p = 3001)) OAUTH_PORTS).1 = Except.ok q ∧
      firstFreeInOrder (fun p => decide (p = 3001)) OAUTH_PORTS q) ∧
    ((findAvailablePort (fun _ => false) OAUTH_PORTS).1 =
      Except.error ("No available ports found. Tried: " ++ joinPorts OAUTH_PORTS) ∧
     (findAvailablePort (fun _ => false) OAUTH_PORTS).2 =
      OAUTH_PORTS.map PortEvent.bindFail) :=
  ⟨(C7_port_selection (fun p => decide (p = 3001)) OAUTH_PORTS).1
      ⟨3001, by decide, by decide⟩,
   (C7_port_selection (fun _ => false) OAUTH_PORTS).2.1 (fun p _ => rfl)⟩

end SafeGmail
